import Mathlib

/-!
Shallow embedding of the layered flow-diagram (Sankey) engine of the
`PredictiveSankeyDiagram` React component: the risk color scale, the layout
engine computing node positions, the link geometry builder and the
interaction (hover/selection) state machine, translated from the source.
JS numbers are modelled as rationals (`ℚ`); the fallible JS property
accesses (`nodePositions[link.source]` / `nodes[link.source]` on a missing
key, which throw at render time) are modelled with `Option`.
-/

namespace Sankey

/-- Color scale translated from `getRiskColor` in the source: an if-chain
on strict lower bounds 0.7, 0.5, 0.3, 0.15 mapped to five fixed colors. -/
def getRiskColor (score : ℚ) : String :=
  if score > 0.7 then "#dc2626"
  else if score > 0.5 then "#f97316"
  else if score > 0.3 then "#eab308"
  else if score > 0.15 then "#22c55e"
  else "#16a34a"

/-- The minimum ribbon thickness: the first argument of `Math.max` in the
source's `linkHeight` computation. -/
def minThickness : ℚ := 2

/-- The maximum ribbon thickness: the scale factor 25 in the source's
`linkHeight` computation. -/
def maxThickness : ℚ := 25

/-- `const linkHeight = Math.max(2, (link.value / maxValue) * 25)` from the
source, with the value and the dataset maximum as parameters. -/
def linkHeight (value maxValue : ℚ) : ℚ :=
  max 2 ((value / maxValue) * 25)

/-- Canvas parameters: `width`, `height` and the `margin` object of the
source. -/
structure Canvas where
  width : ℚ
  height : ℚ
  marginTop : ℚ
  marginRight : ℚ
  marginBottom : ℚ
  marginLeft : ℚ
deriving DecidableEq

/-- The source's constants: `width = 1500`, `height = 800`,
`margin = { top: 80, right: 200, bottom: 80, left: 150 }`. -/
def sourceCanvas : Canvas :=
  { width := 1500, height := 800
    marginTop := 80, marginRight := 200, marginBottom := 80, marginLeft := 150 }

/-- A node of the dataset (the fields the layout, color and interaction
logic read: `id`, `name`, `layer`, `riskScore`). -/
structure Node where
  id : ℕ
  name : String
  layer : ℕ
  riskScore : ℚ
deriving DecidableEq

/-- A link of the dataset: `{source, target, value}`. -/
structure Link where
  source : ℕ
  target : ℕ
  value : ℚ
deriving DecidableEq

/-- An entry of the source's `nodePositions` dictionary:
`{x, y, width, height, riskScore}`. -/
structure Position where
  x : ℚ
  y : ℚ
  width : ℚ
  height : ℚ
  riskScore : ℚ
deriving DecidableEq

/-- `const nodeHeight = 45` in the layout loop. -/
def nodeHeight : ℚ := 45

/-- The inter-node vertical gap: the literal 15 in the layout loop. -/
def nodeGap : ℚ := 15

/-- The fixed node box width: the literal 130 in the layout loop. -/
def nodeWidth : ℚ := 130

/-- The number of layers: the source builds `layers = [[], [], [], [], []]`. -/
def numLayers : ℕ := 5

/-- `const layerWidth = (width - margin.left - margin.right) / 4`. -/
def layerWidth (c : Canvas) : ℚ :=
  (c.width - c.marginLeft - c.marginRight) / 4

/-- `const layerHeight = height - margin.top - margin.bottom`. -/
def layerHeight (c : Canvas) : ℚ :=
  c.height - c.marginTop - c.marginBottom

/-- The source's stable partition of nodes into layer buckets
(`nodes.forEach(node => layers[node.layer].push(node))`): the bucket for
layer `l`, in input order. -/
def layerNodes (nodes : List Node) (l : ℕ) : List Node :=
  nodes.filter (fun n => n.layer == l)

/-- `const totalHeight = layer.length * (nodeHeight + 15)` — note the
source does not subtract a trailing gap. -/
def totalHeight (count : ℕ) : ℚ :=
  (count : ℚ) * (nodeHeight + nodeGap)

/-- `const startY = margin.top + (layerHeight - totalHeight) / 2`. -/
def startY (c : Canvas) (count : ℕ) : ℚ :=
  c.marginTop + (layerHeight c - totalHeight count) / 2

/-- The per-layer body of the layout loop: for the bucket of layer
`layerIndex`, each node at ordinal `nodeIndex` gets
`x = margin.left + layerIndex * layerWidth`,
`y = startY + nodeIndex * (nodeHeight + 15)`, `width = 130`,
`height = nodeHeight`, keyed by `node.id`. -/
def layerPositions (c : Canvas) (nodes : List Node) (layerIndex : ℕ) :
    List (ℕ × Position) :=
  (layerNodes nodes layerIndex).enum.map (fun p =>
    (p.2.id,
      { x := c.marginLeft + (layerIndex : ℚ) * layerWidth c
        y := startY c (layerNodes nodes layerIndex).length
               + (p.1 : ℚ) * (nodeHeight + nodeGap)
        width := nodeWidth
        height := nodeHeight
        riskScore := p.2.riskScore }))

/-- The whole `nodePositions` dictionary as an association list: the layout
loop `layers.forEach((layer, layerIndex) => ...)` over the five buckets. -/
def nodePositions (c : Canvas) (nodes : List Node) : List (ℕ × Position) :=
  (List.range numLayers).flatMap (fun l => layerPositions c nodes l)

/-- `Math.max(...links.map(l => l.value))`: the dataset maximum of the link
values (`none` for an empty link list, where the JS spread would give
`-Infinity`). -/
def maxLinkValue : List Link → Option ℚ
  | [] => none
  | l :: ls => some (ls.foldl (fun m x => max m x.value) l.value)

/-- One command of the d3 path the ribbon outline is built from. -/
inductive PathCmd
  | moveTo (x y : ℚ)
  | bezierCurveTo (c1x c1y c2x c2y x y : ℚ)
  | lineTo (x y : ℚ)
  | closePath
deriving DecidableEq

/-- The ribbon outline of the source's `links.forEach` body: resolve both
endpoints in `nodePositions`; a missing endpoint (the JS
`nodePositions[...]` is `undefined` and the subsequent property access
throws) yields `none`, otherwise the moveTo / bezierCurveTo / lineTo /
bezierCurveTo / closePath sequence with the `±40` control-point offsets. -/
def buildRibbon (positions : List (ℕ × Position)) (maxValue : ℚ)
    (lk : Link) : Option (List PathCmd) :=
  match positions.lookup lk.source, positions.lookup lk.target with
  | some source, some target =>
    let h := linkHeight lk.value maxValue
    some
      [ .moveTo (source.x + source.width) (source.y + source.height / 2),
        .bezierCurveTo (source.x + source.width + 40)
          (source.y + source.height / 2)
          (target.x - 40) (target.y + target.height / 2)
          target.x (target.y + target.height / 2),
        .lineTo target.x (target.y + target.height / 2 - h / 2),
        .bezierCurveTo (target.x - 40)
          (target.y + target.height / 2 - h / 2)
          (source.x + source.width + 40)
          (source.y + source.height / 2 - h / 2)
          (source.x + source.width)
          (source.y + source.height / 2 - h / 2),
        .closePath ]
  | _, _ => none

/-- `const avgScore = (sourceScore + targetScore) / 2` where the source
reads `nodes[link.source].riskScore` and `nodes[link.target].riskScore`
(array indexing; an out-of-range index throws, modelled as `none`). -/
def avgLinkScore (nodes : List Node) (lk : Link) : Option ℚ :=
  match nodes.get? lk.source, nodes.get? lk.target with
  | some s, some t => some ((s.riskScore + t.riskScore) / 2)
  | _, _ => none

/-- The ribbon fill: `.attr('fill', getRiskColor(avgScore))`. -/
def ribbonColor (nodes : List Node) (lk : Link) : Option String :=
  (avgLinkScore nodes lk).map getRiskColor

/-- The interaction state: the `hoveredNode` and `selectedNode` React
states (`useState(null)` both). -/
structure InteractionState where
  hoveredNode : Option ℕ
  selectedNode : Option ℕ
deriving DecidableEq

/-- The discrete input events the node handlers react to. -/
inductive Event
  | mouseenterNode (id : ℕ)
  | mouseleaveNode
  | clickNode (id : ℕ)
deriving DecidableEq

/-- The state transitions of the node handlers:
`mouseenter → setHoveredNode(node.id)`, `mouseleave → setHoveredNode(null)`,
`click → setSelectedNode(selectedNode === node.id ? null : node.id)`. -/
def step (s : InteractionState) : Event → InteractionState
  | .mouseenterNode id => { s with hoveredNode := some id }
  | .mouseleaveNode => { s with hoveredNode := none }
  | .clickNode id =>
      { s with selectedNode := if s.selectedNode = some id then none else some id }

/-- The kind of a `rect` element in the drawing: a node rectangle or one of
the legend color swatches. -/
inductive RectKind
  | nodeRect (id : ℕ)
  | legendSwatch (idx : ℕ)
deriving DecidableEq

/-- A `rect` element with its `opacity` attribute (`none` = attribute not
set, so the SVG default opacity 1 applies). -/
structure Rect where
  kind : RectKind
  opacity : Option ℚ
deriving DecidableEq

/-- The rectangles the initial render creates: one rect per node with
`.attr('opacity', 0.85)`, and one legend swatch per legend row with no
opacity attribute. -/
def initialRects (nodeIds : List ℕ) (legendCount : ℕ) : List Rect :=
  nodeIds.map (fun i => { kind := .nodeRect i, opacity := some 0.85 }) ++
  (List.range legendCount).map (fun i => { kind := .legendSwatch i, opacity := none })

/-- `d3.selectAll('rect').attr('opacity', 0.3)`: every rect in the drawing
is dimmed, whatever its kind. -/
def dimAllRects (rects : List Rect) : List Rect :=
  rects.map (fun r => { r with opacity := some 0.3 })

/-- `d3.select(this).select('rect').attr('opacity', 1)`: the hovered node's
own rectangle back to full opacity. -/
def highlightRect (id : ℕ) (rects : List Rect) : List Rect :=
  rects.map (fun r => if r.kind = .nodeRect id then { r with opacity := some 1 } else r)

/-- The node `mouseenter` handler: dim every rect, then restore the hovered
node's rect. -/
def onMouseEnter (id : ℕ) (rects : List Rect) : List Rect :=
  highlightRect id (dimAllRects rects)

/-- The node `mouseleave` handler:
`d3.selectAll('rect').attr('opacity', 0.85)`. -/
def onMouseLeave (rects : List Rect) : List Rect :=
  rects.map (fun r => { r with opacity := some 0.85 })

/-- The opacity a rect renders at: its attribute, or the SVG default 1. -/
def renderedOpacity (r : Rect) : ℚ :=
  r.opacity.getD 1

/-- A three-node single-layer dataset used as a concrete layout input. -/
def c3Nodes : List Node :=
  [ { id := 0, name := "A", layer := 0, riskScore := 0.2 },
    { id := 1, name := "B", layer := 0, riskScore := 0.3 },
    { id := 2, name := "C", layer := 0, riskScore := 0.4 } ]

/-- The two-node dataset of the end-to-end scenario:
`{id:0, layer:0, riskScore:0.3}` and `{id:1, layer:1, riskScore:0.9}`. -/
def c4Nodes : List Node :=
  [ { id := 0, name := "n0", layer := 0, riskScore := 0.3 },
    { id := 1, name := "n1", layer := 1, riskScore := 0.9 } ]

/-- The single link of the end-to-end scenario: `{source:0, target:1, value:100}`. -/
def c4Link : Link :=
  { source := 0, target := 1, value := 100 }

end Sankey

namespace Sankey

/-- Claim C1: for every score `s`, `getRiskColor` returns exactly one of
five bands with its fixed color, with right-open boundaries except the top:
`s > 0.7 → #dc2626` (VeryHigh), `0.5 < s ≤ 0.7 → #f97316` (High),
`0.3 < s ≤ 0.5 → #eab308` (Medium), `0.15 < s ≤ 0.3 → #22c55e` (Low),
`s ≤ 0.15 → #16a34a` (VeryLow); the boundary scores 0.15, 0.3, 0.5, 0.7
fall into the lower band of each pair. -/
theorem C1_color_bands (s : ℚ) :
    (0.7 < s → getRiskColor s = "#dc2626") ∧
    (0.5 < s → s ≤ 0.7 → getRiskColor s = "#f97316") ∧
    (0.3 < s → s ≤ 0.5 → getRiskColor s = "#eab308") ∧
    (0.15 < s → s ≤ 0.3 → getRiskColor s = "#22c55e") ∧
    (s ≤ 0.15 → getRiskColor s = "#16a34a") ∧
    (getRiskColor s = "#dc2626" ∨ getRiskColor s = "#f97316" ∨
      getRiskColor s = "#eab308" ∨ getRiskColor s = "#22c55e" ∨
      getRiskColor s = "#16a34a") ∧
    getRiskColor 0.7 = "#f97316" ∧ getRiskColor 0.5 = "#eab308" ∧
    getRiskColor 0.3 = "#22c55e" ∧ getRiskColor 0.15 = "#16a34a" := by
  refine ⟨?_, ?_, ?_, ?_, ?_, ?_, by norm_num [getRiskColor],
    by norm_num [getRiskColor], by norm_num [getRiskColor],
    by norm_num [getRiskColor]⟩ <;>
    unfold getRiskColor <;> intros <;> split_ifs <;>
    first | rfl | tauto | linarith

/-- Witness for C1 at the concrete score 0.6. -/
theorem C1_color_bands_witness : getRiskColor 0.6 = "#f97316" :=
  (C1_color_bands 0.6).2.1 (by norm_num) (by norm_num)

/-- Claim C2: the ribbon thickness equals
`max(minThickness, (value / maxValue) * maxThickness)` with
`minThickness = 2`, `maxThickness = 25`; for `0 < value ≤ maxValue` it lies
in `[minThickness, maxThickness]`, at `value = maxValue` it is exactly
`maxThickness`, and once `(value / maxValue) * maxThickness` drops to
`minThickness` or below it stays at `minThickness`. -/
theorem C2_thickness_bounds (v maxV : ℚ) (hv : 0 < v) (hvm : v ≤ maxV) :
    linkHeight v maxV = max minThickness ((v / maxV) * maxThickness) ∧
    minThickness ≤ linkHeight v maxV ∧
    linkHeight v maxV ≤ maxThickness ∧
    (v = maxV → linkHeight v maxV = maxThickness) ∧
    ((v / maxV) * maxThickness ≤ minThickness →
      linkHeight v maxV = minThickness) := by
  have hm : 0 < maxV := lt_of_lt_of_le hv hvm
  have hdiv : v / maxV ≤ 1 := (div_le_one hm).mpr hvm
  refine ⟨rfl, le_max_left _ _, ?_, ?_, ?_⟩
  · unfold linkHeight maxThickness
    refine max_le (by norm_num) ?_
    calc (v / maxV) * 25 ≤ 1 * 25 := by
          exact mul_le_mul_of_nonneg_right hdiv (by norm_num)
      _ = 25 := by norm_num
  · intro hEq
    subst hEq
    unfold linkHeight maxThickness
    rw [div_self (ne_of_gt hm), one_mul]
    exact max_eq_right (by norm_num)
  · intro hsmall
    unfold linkHeight minThickness at *
    exact max_eq_left hsmall

/-- Witness for C2 at `value = 10`, `maxValue = 100`. -/
theorem C2_thickness_bounds_witness :
    minThickness ≤ linkHeight 10 100 ∧ linkHeight 10 100 ≤ maxThickness :=
  ⟨(C2_thickness_bounds 10 100 (by norm_num) (by norm_num)).2.1,
   (C2_thickness_bounds 10 100 (by norm_num) (by norm_num)).2.2.1⟩

/-- Counterexample to claim C3 as stated: with the source's canvas and a
layer of 3 nodes, the code's vertical start offset (310) differs from the
claimed `margin.top + (layerHeight - (count * (nodeHeight + gap) - gap)) / 2`
(317.5). -/
theorem C3_counterexample :
    startY sourceCanvas 3 ≠
      sourceCanvas.marginTop +
        (layerHeight sourceCanvas - ((3 : ℚ) * (nodeHeight + nodeGap) - nodeGap)) / 2 := by
  norm_num [startY, totalHeight, layerHeight, sourceCanvas, nodeHeight, nodeGap]

/-- Claim C3 amended: within a layer of `count` nodes the y positions are
`startY + i * (nodeHeight + gap)` for `i = 0, …, count-1`, with
`startY = margin.top + (layerHeight - count * (nodeHeight + gap)) / 2` —
the code does not subtract the trailing gap, so the stack (whose actual
height is `count * (nodeHeight + gap) - gap`) is centered `gap / 2` above
the middle of the usable canvas height rather than exactly on it. -/
theorem C3_layout_stacking (c : Canvas) (nodes : List Node) (l count : ℕ) :
    (layerPositions c nodes l).map (fun q => q.2.y)
      = (List.range (layerNodes nodes l).length).map
          (fun i : ℕ => startY c (layerNodes nodes l).length
            + (i : ℚ) * (nodeHeight + nodeGap)) ∧
    startY c count
      = c.marginTop + (layerHeight c - (count : ℚ) * (nodeHeight + nodeGap)) / 2 ∧
    startY c count + ((count : ℚ) * (nodeHeight + nodeGap) - nodeGap) / 2
      = c.marginTop + layerHeight c / 2 - nodeGap / 2 := by
  refine ⟨?_, rfl, ?_⟩
  · unfold layerPositions
    rw [List.map_map, ← List.enum_map_fst (layerNodes nodes l), List.map_map]
    rfl
  · unfold startY totalHeight
    ring

/-- Witness for C3 amended: the start offset of a 3-node layer at the
source's canvas. -/
theorem C3_layout_stacking_witness :
    startY sourceCanvas 3
      = sourceCanvas.marginTop
        + (layerHeight sourceCanvas - (3 : ℚ) * (nodeHeight + nodeGap)) / 2 :=
  (C3_layout_stacking sourceCanvas c3Nodes 0 3).2.1

/-- Claim C6: the layout is a deterministic, side-effect-free function of
the canvas and the node list — two runs on identical inputs give identical
positions for every node id. -/
theorem C6_layout_deterministic (c c' : Canvas) (ns ns' : List Node)
    (hc : c = c') (hn : ns = ns') :
    nodePositions c ns = nodePositions c' ns' := by
  rw [hc, hn]

/-- Witness for C6 at the source's canvas and a concrete dataset. -/
theorem C6_layout_deterministic_witness :
    nodePositions sourceCanvas c3Nodes = nodePositions sourceCanvas c3Nodes :=
  C6_layout_deterministic sourceCanvas sourceCanvas c3Nodes c3Nodes rfl rfl

/-- Claim C7: ribbon thickness is monotonic in the link value — for two
links normalized by the same positive `maxValue`, a strictly larger value
gives a thickness at least as large. -/
theorem C7_thickness_monotone (a b maxV : ℚ) (hm : 0 < maxV) (hab : b < a) :
    linkHeight b maxV ≤ linkHeight a maxV := by
  unfold linkHeight
  refine max_le_max le_rfl ?_
  have : b / maxV ≤ a / maxV := by
    apply div_le_div_of_nonneg_right hab.le hm.le
  exact mul_le_mul_of_nonneg_right this (by norm_num)

/-- Witness for C7 at values 10 and 100, `maxValue = 100`. -/
theorem C7_thickness_monotone_witness :
    linkHeight 10 100 ≤ linkHeight 100 100 :=
  C7_thickness_monotone 100 10 100 (by norm_num) (by norm_num)

/-- Claim C4: the ribbon fill is `getRiskColor` of the average of the
resolved source and target risk scores; in the end-to-end scenario
(nodes with risk scores 0.3 and 0.9, one link of value 100, dataset
maximum 100) the color is `getRiskColor 0.6 = #f97316` (High) and the
thickness is `maxThickness`. -/
theorem C4_ribbon_color (nodes : List Node) (lk : Link) (s t : Node)
    (hs : nodes.get? lk.source = some s) (ht : nodes.get? lk.target = some t) :
    ribbonColor nodes lk = some (getRiskColor ((s.riskScore + t.riskScore) / 2)) ∧
    ribbonColor c4Nodes c4Link = some "#f97316" ∧
    getRiskColor ((0.3 + 0.9) / 2) = "#f97316" ∧
    maxLinkValue [c4Link] = some 100 ∧
    linkHeight c4Link.value 100 = maxThickness := by
  have havg : avgLinkScore c4Nodes c4Link = some ((0.3 + 0.9) / 2) := rfl
  have hcol : getRiskColor ((0.3 + 0.9 : ℚ) / 2) = "#f97316" := by
    norm_num [getRiskColor]
  refine ⟨?_, ?_, hcol, rfl, ?_⟩
  · unfold ribbonColor avgLinkScore
    rw [hs, ht]
    rfl
  · unfold ribbonColor
    rw [havg, Option.map_some']
    rw [hcol]
  · show linkHeight 100 100 = maxThickness
    unfold linkHeight maxThickness
    rw [show ((100 : ℚ) / 100) * 25 = 25 by norm_num]
    exact max_eq_right (by norm_num)

/-- Witness for C4 at the end-to-end dataset itself. -/
theorem C4_ribbon_color_witness :
    ribbonColor c4Nodes c4Link = some "#f97316" :=
  (C4_ribbon_color c4Nodes c4Link
    { id := 0, name := "n0", layer := 0, riskScore := 0.3 }
    { id := 1, name := "n1", layer := 1, riskScore := 0.9 } rfl rfl).2.1

/-- Counterexample to claim C5 as stated: starting from a state where node
3 is already selected, clicking node 3 twice in a row leaves node 3
selected, not an empty selection. -/
theorem C5_counterexample :
    (step (step { hoveredNode := none, selectedNode := some 3 }
        (.clickNode 3)) (.clickNode 3)).selectedNode ≠ none := by
  decide

/-- Claim C5 amended: a click on node `X` clears the selection when
`selectedId = X` and sets `selectedId = X` otherwise; hence clicking the
same node twice in a row empties the selection exactly when `X` was not
already selected at the start — when it was, the two clicks re-select `X`. -/
theorem C5_click_toggle (s : InteractionState) (X : ℕ) :
    (step s (.clickNode X)).selectedNode
      = (if s.selectedNode = some X then none else some X) ∧
    (s.selectedNode ≠ some X →
      (step (step s (.clickNode X)) (.clickNode X)).selectedNode = none) ∧
    (s.selectedNode = some X →
      (step (step s (.clickNode X)) (.clickNode X)).selectedNode = some X) := by
  by_cases h : s.selectedNode = some X <;> simp [step, h]

/-- Witness for C5 amended: from the empty selection, two clicks on node 3
leave the selection empty. -/
theorem C5_click_toggle_witness :
    (step (step { hoveredNode := none, selectedNode := none }
        (.clickNode 3)) (.clickNode 3)).selectedNode = none :=
  (C5_click_toggle { hoveredNode := none, selectedNode := none } 3).2.1
    (by decide)

/-- Claim C8: the hover state holds at most one id — a pointer-enter sets
`hoveredNode` to exactly the entered id whatever was hovered before, a
pointer-leave clears it, a click leaves it unchanged, and neither
enter nor leave touches the selection. -/
theorem C8_hover_exclusive (s : InteractionState) (id X : ℕ) :
    (step s (.mouseenterNode id)).hoveredNode = some id ∧
    (step s .mouseleaveNode).hoveredNode = none ∧
    (step s (.clickNode X)).hoveredNode = s.hoveredNode ∧
    (step s (.mouseenterNode id)).selectedNode = s.selectedNode ∧
    (step s .mouseleaveNode).selectedNode = s.selectedNode :=
  ⟨rfl, rfl, rfl, rfl, rfl⟩

/-- Witness for C8: entering node 1 from a state hovering node 2. -/
theorem C8_hover_exclusive_witness :
    (step { hoveredNode := some 2, selectedNode := none }
      (.mouseenterNode 1)).hoveredNode = some 1 :=
  (C8_hover_exclusive { hoveredNode := some 2, selectedNode := none } 1 0).1

/-- Claim C9: a link whose source or target id resolves to no position
makes the geometry builder fail (no ribbon is produced — the JS property
access on `undefined` throws at load time), and it is never silently
defaulted: when both endpoints resolve, a ribbon is always produced. -/
theorem C9_missing_endpoint (positions : List (ℕ × Position)) (maxV : ℚ)
    (lk : Link) :
    (positions.lookup lk.source = none ∨ positions.lookup lk.target = none →
      buildRibbon positions maxV lk = none) ∧
    (∀ ps pt, positions.lookup lk.source = some ps →
      positions.lookup lk.target = some pt →
      (buildRibbon positions maxV lk).isSome = true) := by
  constructor
  · intro h
    unfold buildRibbon
    rcases hs : positions.lookup lk.source with _ | ps <;>
      rcases ht : positions.lookup lk.target with _ | pt
    · rfl
    · rfl
    · rfl
    · rcases h with h | h
      · rw [hs] at h
        exact Option.noConfusion h
      · rw [ht] at h
        exact Option.noConfusion h
  · intro ps pt hs ht
    simp [buildRibbon, hs, ht]

/-- Witness for C9: the empty position table resolves nothing, so the
builder yields no geometry. -/
theorem C9_missing_endpoint_witness :
    buildRibbon [] 1 { source := 0, target := 1, value := 5 } = none :=
  (C9_missing_endpoint [] 1 { source := 0, target := 1, value := 5 }).1
    (Or.inl rfl)

/-- Claim C10: a node pointer-enter dims every rect in the drawing to 0.3
— the legend swatches included, not only node rects — with the hovered
node's own rect back at 1, and the pointer-leave sets every rect to 0.85;
so after one hover/leave cycle a legend swatch renders at 0.85 instead of
its initial default opacity 1. -/
theorem C10_legend_dimmed (nodeIds : List ℕ) (legendCount : ℕ) (id : ℕ)
    (r : Rect) :
    (r ∈ initialRects nodeIds legendCount →
      (∃ i, r.kind = .legendSwatch i) → renderedOpacity r = 1) ∧
    (r ∈ onMouseEnter id (initialRects nodeIds legendCount) →
      r.kind ≠ .nodeRect id → r.opacity = some 0.3) ∧
    (r ∈ onMouseEnter id (initialRects nodeIds legendCount) →
      r.kind = .nodeRect id → r.opacity = some 1) ∧
    (r ∈ onMouseLeave (onMouseEnter id (initialRects nodeIds legendCount)) →
      r.opacity = some 0.85) ∧
    (r ∈ onMouseLeave (onMouseEnter id (initialRects nodeIds legendCount)) →
      renderedOpacity r = 0.85) := by
  refine ⟨?_, ?_, ?_, ?_, ?_⟩
  · rintro hr ⟨i, hk⟩
    unfold initialRects at hr
    rcases List.mem_append.mp hr with h | h
    · obtain ⟨a, _, rfl⟩ := List.mem_map.mp h
      simp at hk
    · obtain ⟨a, _, rfl⟩ := List.mem_map.mp h
      rfl
  · intro hr hk
    unfold onMouseEnter highlightRect at hr
    obtain ⟨b, hb, rfl⟩ := List.mem_map.mp hr
    unfold dimAllRects at hb
    obtain ⟨a, _, rfl⟩ := List.mem_map.mp hb
    by_cases hak : a.kind = RectKind.nodeRect id
    · simp [hak] at hk
    · simp [hak]
  · intro hr hk
    unfold onMouseEnter highlightRect at hr
    obtain ⟨b, hb, rfl⟩ := List.mem_map.mp hr
    unfold dimAllRects at hb
    obtain ⟨a, _, rfl⟩ := List.mem_map.mp hb
    by_cases hak : a.kind = RectKind.nodeRect id
    · simp [hak]
    · simp [hak] at hk
  · intro hr
    unfold onMouseLeave at hr
    obtain ⟨b, _, rfl⟩ := List.mem_map.mp hr
    rfl
  · intro hr
    unfold onMouseLeave at hr
    obtain ⟨b, _, rfl⟩ := List.mem_map.mp hr
    rfl

/-- Witness for C10: a legend swatch of the initial drawing (one node,
the source's five legend rows) renders at the default opacity 1. -/
theorem C10_legend_dimmed_witness :
    renderedOpacity { kind := .legendSwatch 0, opacity := none } = 1 :=
  (C10_legend_dimmed [0] 5 0 { kind := .legendSwatch 0, opacity := none }).1
    (by decide) ⟨0, rfl⟩

end Sankey
